import Mathlib

/-!
cm4fan: temperature-driven PWM fan controller.

A shallow embedding of `cm4fan-io.c` (a Linux kernel module) and proofs about
its control-loop step `fan_update` and its activation hook `cm4io_fan_init`.

Conventions of the embedding:

* C `int` values are mathematical integers; every `int` operation that can
  leave the 32-bit range is wrapped explicitly by `wrap_int` (the kernel is
  built with `-fno-strict-overflow`, so signed arithmetic wraps).
* `u64` values (`period`, `duty_cycle` of `struct pwm_state`) are natural
  numbers; every `u64` operation is reduced modulo `2 ^ 64` explicitly.
* A `u64` division by zero is a fault and is modelled as `none`.
* Pointers returned by kernel services are integers (the pointer value read
  as a signed `long`), so that `IS_ERR` / `PTR_ERR` keep their meaning.
* Calls into the host kernel that are visible from outside (log lines, PWM
  apply calls, timer arming) are appended to an event log.
-/

namespace Cm4Fan

/-! ## Machine arithmetic -/

/-- Membership in the range of a C `int` (32-bit, signed). -/
def InInt (x : Int) : Prop := -2147483648 ≤ x ∧ x ≤ 2147483647

instance (x : Int) : Decidable (InInt x) := by
  unfold InInt; infer_instance

/-- Wraparound of an `int` result to the 32-bit signed range. -/
def wrap_int (x : Int) : Int := (x + 2147483648) % 4294967296 - 2147483648

/-- Conversion of a signed integer operand to `u64` (usual arithmetic
conversion: reduction modulo `2 ^ 64`). -/
def to_u64 (x : Int) : Nat := (x % 18446744073709551616).toNat

/-- Multiplication of two `u64` values. -/
def mul_u64 (a b : Nat) : Nat := (a * b) % 18446744073709551616

/-- Division of two `u64` values; dividing by zero is a fault. -/
def div_u64 (a b : Nat) : Option Nat := if b = 0 then none else some (a / b)

/-! ## Data model -/

/-- The poll interval: `#define FAN_POLL_INTERVAL_MS 500`. -/
def FAN_POLL_INTERVAL_MS : Nat := 500

/-- The two module parameters `min_temp` and `max_temp` (C `int`,
milli-degrees Celsius), fixed at load time. -/
structure Params where
  min_temp : Int
  max_temp : Int
  deriving DecidableEq

/-- The defaults of the module parameters: 50.0 C and 70.0 C. -/
def Params.default : Params := ⟨50000, 70000⟩

/-- The fields of `struct pwm_state` the driver touches: `period` and
`duty_cycle` are `u64` nanoseconds, `enabled` is a `bool`. -/
structure pwm_state where
  period : Nat
  duty_cycle : Nat
  enabled : Bool
  deriving DecidableEq

/-- Externally visible calls made by the driver. -/
inductive Event where
  /-- Call `pr_err("cm4io_fan: Failed to get thermal zone\n")` -/
  | pr_err_zone
  /-- Call `pr_err("cm4io_fan: Failed to read temperature\n")` -/
  | pr_err_temp
  /-- Call `pr_err("cm4io_fan: Failed to get PWM device\n")` -/
  | pr_err_pwm
  /-- Call `pr_info("cm4io_fan: Loaded successfully\n")` -/
  | pr_info_loaded
  /-- Call `pwm_apply_state(fan_pwm, &pstate)` with the value of `pstate` -/
  | pwm_apply_state (pstate : pwm_state)
  /-- Call `schedule_delayed_work(&fan_work, msecs_to_jiffies(ms))` -/
  | schedule_delayed_work (ms : Nat)
  deriving DecidableEq

/-- The part of the kernel the driver reads and writes: the global
`fan_pwm`, the state held by the PWM device (what `pwm_get_state` reads and
`pwm_apply_state` writes), and the log of visible calls so far. -/
structure Kernel where
  fan_pwm : Int
  state : pwm_state
  log : List Event
  deriving DecidableEq

/-- What the thermal subsystem answers during one control-loop step: the
pointer returned by `thermal_zone_get_zone_by_name("cpu-thermal")`, the return
code of `thermal_zone_get_temp`, and the value it stores into `temp_mC`. -/
structure Thermal where
  tz : Int
  rc : Int
  temp_mC : Int
  deriving DecidableEq

/-! ## Kernel services used by the driver -/

/-- Macro `IS_ERR(ptr)`: the pointer value lies in the last `MAX_ERRNO = 4095`
addresses, i.e. it is in `[-4095, -1]` read as a signed `long`. -/
def IS_ERR (ptr : Int) : Bool := decide (-4095 ≤ ptr ∧ ptr ≤ -1)

/-- Macro `PTR_ERR(ptr)`: the pointer value as a `long`. -/
def PTR_ERR (ptr : Int) : Int := ptr

/-- Service `pwm_get_state(pwm, &pstate)`: reads the state held by the device. -/
def pwm_get_state (k : Kernel) : pwm_state := k.state

/-- Service `pwm_init_state(pwm, &pstate)`: clears the state and takes the period from
the arguments the device was registered with. -/
def pwm_init_state (args_period : Nat) : pwm_state := ⟨args_period, 0, false⟩

/-- Service `pwm_apply_state(pwm, &pstate)`: the device takes the new state. The
driver discards the return value. -/
def pwm_apply_state (k : Kernel) (pstate : pwm_state) : Kernel :=
  { k with state := pstate, log := k.log ++ [Event.pwm_apply_state pstate] }

/-- Service `schedule_delayed_work(&fan_work, msecs_to_jiffies(ms))`: arms the timer;
the delay is kept in milliseconds. -/
def schedule_delayed_work (k : Kernel) (ms : Nat) : Kernel :=
  { k with log := k.log ++ [Event.schedule_delayed_work ms] }

/-- A log line. -/
def pr (k : Kernel) (e : Event) : Kernel := { k with log := k.log ++ [e] }

/-! ## The driver -/

/-- Lines 44-50 of `fan_update`: the value assigned to `pstate.duty_cycle`,
given `pstate.period` and the reading `temp_mC`. The subtractions are `int`
subtractions; the multiplication and the division are `u64` operations. -/
def duty_cycle (p : Params) (period : Nat) (temp_mC : Int) : Option Nat :=
  if temp_mC ≤ p.min_temp then
    some 0
  else if temp_mC ≥ p.max_temp then
    some period
  else
    div_u64 (mul_u64 period (to_u64 (wrap_int (temp_mC - p.min_temp))))
      (to_u64 (wrap_int (p.max_temp - p.min_temp)))

/-- The control-loop step `fan_update`. The result is `none` when the step
faults (division by zero). -/
def fan_update (p : Params) (th : Thermal) (k : Kernel) : Option Kernel :=
  if IS_ERR th.tz then
    some (schedule_delayed_work (pr k Event.pr_err_zone) FAN_POLL_INTERVAL_MS)
  else if th.rc ≠ 0 then
    some (schedule_delayed_work (pr k Event.pr_err_temp) FAN_POLL_INTERVAL_MS)
  else
    let pstate := pwm_get_state k
    let pstate := { pstate with period := 40000 }
    match duty_cycle p pstate.period th.temp_mC with
    | none => none
    | some d =>
      let pstate := { pstate with duty_cycle := d }
      let pstate := { pstate with enabled := true }
      some (schedule_delayed_work (pwm_apply_state k pstate) FAN_POLL_INTERVAL_MS)

/-- The activation hook `cm4io_fan_init`. `ptr` is the value returned by
`pwm_get(NULL, "pwm0")` and `args_period` the period the device was registered
with. The result is the `int` returned to the loader and the kernel after the
call. -/
def cm4io_fan_init (ptr : Int) (args_period : Nat) (k : Kernel) : Int × Kernel :=
  let k := { k with fan_pwm := ptr }
  if IS_ERR k.fan_pwm then
    (wrap_int (PTR_ERR k.fan_pwm), pr k Event.pr_err_pwm)
  else
    let pstate := pwm_init_state args_period
    let pstate := { pstate with enabled := true }
    let pstate := { pstate with period := 40000 }
    let pstate := { pstate with duty_cycle := 0 }
    let k := pwm_apply_state k pstate
    let k := schedule_delayed_work k FAN_POLL_INTERVAL_MS
    (0, pr k Event.pr_info_loaded)

/-- The host scheduler firing the timer repeatedly: one `fan_update` per
firing, each with the answers of the thermal subsystem at that time. -/
def run (p : Params) : List Thermal → Kernel → Option Kernel
  | [], k => some k
  | th :: rest, k =>
    match fan_update p th k with
    | none => none
    | some k1 => run p rest k1

/-! ## Observations on the event log -/

/-- The states passed to `pwm_apply_state`, in call order. -/
def apply_calls : List Event → List pwm_state
  | [] => []
  | Event.pwm_apply_state s :: es => s :: apply_calls es
  | _ :: es => apply_calls es

/-- The delays (ms) passed to `schedule_delayed_work`, in call order. -/
def scheduled : List Event → List Nat
  | [] => []
  | Event.schedule_delayed_work ms :: es => ms :: scheduled es
  | _ :: es => scheduled es

/-- The thermal subsystem answered both calls of a step successfully. -/
def Thermal.ok (th : Thermal) : Prop := IS_ERR th.tz = false ∧ th.rc = 0

instance (th : Thermal) : Decidable th.ok := by
  unfold Thermal.ok; infer_instance

/-- The interpolation formula in the words of the specification:
`floor(period * (temp - min_temp) / (max_temp - min_temp))` with
`period = 40000`, over the mathematical integers. -/
def spec_interp (p : Params) (temp : Int) : Int :=
  Int.fdiv (40000 * (temp - p.min_temp)) (p.max_temp - p.min_temp)

/-- The guard under which `fan_update` reaches the interpolation (the final
`else` of lines 44-50): neither clamp condition holds. -/
def reaches_interp (p : Params) (temp_mC : Int) : Prop :=
  ¬ temp_mC ≤ p.min_temp ∧ ¬ temp_mC ≥ p.max_temp

instance (p : Params) (t : Int) : Decidable (reaches_interp p t) := by
  unfold reaches_interp; infer_instance

/-- The `int` divisor of the interpolation on line 49, `max_temp - min_temp`. -/
def interp_divisor (p : Params) : Int := wrap_int (p.max_temp - p.min_temp)

/-- A kernel before the module is loaded: no handle, a disabled PWM device,
an empty log. Used for concrete instances. -/
def Kernel.boot : Kernel := ⟨0, ⟨0, 0, false⟩, []⟩

/-! ## Lemmas on the event log -/

@[simp] theorem apply_calls_append (l m : List Event) :
    apply_calls (l ++ m) = apply_calls l ++ apply_calls m := by
  induction l with
  | nil => rfl
  | cons e es ih => cases e <;> simp [apply_calls, ih]

@[simp] theorem scheduled_append (l m : List Event) :
    scheduled (l ++ m) = scheduled l ++ scheduled m := by
  induction l with
  | nil => rfl
  | cons e es ih => cases e <;> simp [scheduled, ih]

/-! ## Shape of a step -/

/-- A step whose two thermal calls succeed and whose duty computation gives
`d` applies `(40000, d, true)` and rearms the timer. -/
theorem fan_update_of_duty (p : Params) (th : Thermal) (k : Kernel) (d : Nat)
    (h : th.ok) (hd : duty_cycle p 40000 th.temp_mC = some d) :
    fan_update p th k = some ⟨k.fan_pwm, ⟨40000, d, true⟩,
      k.log ++ [Event.pwm_apply_state ⟨40000, d, true⟩, Event.schedule_delayed_work 500]⟩ := by
  obtain ⟨hz, hr⟩ := h
  unfold fan_update
  simp [hz, hr, pwm_get_state, hd, schedule_delayed_work, pwm_apply_state,
    FAN_POLL_INTERVAL_MS]

/-! ## Clamps -/

/-- C1 (low clamp): for all thresholds and every reading `temp <= min_temp`, a
step whose zone lookup and temperature read both succeed returns, and the one
PWM state it applies has `duty_cycle = 0`. -/
theorem fan_update_low_clamp (p : Params) (th : Thermal) (k : Kernel)
    (hok : th.ok) (hlow : th.temp_mC ≤ p.min_temp) :
    ∃ k1, fan_update p th k = some k1 ∧
      k1.state.duty_cycle = 0 ∧
      apply_calls k1.log = apply_calls k.log ++ [⟨40000, 0, true⟩] := by
  have hd : duty_cycle p 40000 th.temp_mC = some 0 := by
    simp only [duty_cycle, if_pos hlow]
  exact ⟨_, fan_update_of_duty p th k 0 hok hd, rfl, by simp [apply_calls]⟩

/-- Scenario A: `min_temp = 50000`, `max_temp = 70000`, `temp = 50000` gives
duty cycle 0. -/
theorem fan_update_low_clamp_witness :
    ∃ k1, fan_update ⟨50000, 70000⟩ ⟨0, 0, 50000⟩ Kernel.boot = some k1 ∧
      k1.state.duty_cycle = 0 ∧
      apply_calls k1.log = apply_calls Kernel.boot.log ++ [⟨40000, 0, true⟩] :=
  fan_update_low_clamp ⟨50000, 70000⟩ ⟨0, 0, 50000⟩ Kernel.boot (by decide) (by decide)

/-- C2 (high clamp): for thresholds with `min_temp < max_temp` and every
reading `temp >= max_temp`, a step whose zone lookup and temperature read both
succeed returns, and the one PWM state it applies has
`duty_cycle = period = 40000`. -/
theorem fan_update_high_clamp (p : Params) (th : Thermal) (k : Kernel)
    (hok : th.ok) (hinv : p.min_temp < p.max_temp) (hhigh : th.temp_mC ≥ p.max_temp) :
    ∃ k1, fan_update p th k = some k1 ∧
      k1.state.duty_cycle = 40000 ∧ k1.state.period = 40000 ∧
      apply_calls k1.log = apply_calls k.log ++ [⟨40000, 40000, true⟩] := by
  have hnl : ¬ th.temp_mC ≤ p.min_temp := by omega
  have hd : duty_cycle p 40000 th.temp_mC = some 40000 := by
    simp only [duty_cycle, if_neg hnl, if_pos hhigh]
  exact ⟨_, fan_update_of_duty p th k 40000 hok hd, rfl, rfl, by simp [apply_calls]⟩

/-- Scenario B: `min_temp = 50000`, `max_temp = 70000`, `temp = 70000` gives
duty cycle 40000. -/
theorem fan_update_high_clamp_witness :
    ∃ k1, fan_update ⟨50000, 70000⟩ ⟨0, 0, 70000⟩ Kernel.boot = some k1 ∧
      k1.state.duty_cycle = 40000 ∧ k1.state.period = 40000 ∧
      apply_calls k1.log = apply_calls Kernel.boot.log ++ [⟨40000, 40000, true⟩] :=
  fan_update_high_clamp ⟨50000, 70000⟩ ⟨0, 0, 70000⟩ Kernel.boot
    (by decide) (by decide) (by decide)

/-! ## Interpolation arithmetic -/

/-- An `int` result inside the 32-bit range is not changed by wraparound. -/
theorem wrap_int_of_InInt (x : Int) (h : InInt x) : wrap_int x = x := by
  unfold InInt at h
  unfold wrap_int
  omega

/-- A non-negative value below `2 ^ 64` converts to `u64` unchanged. -/
theorem to_u64_of_nonneg (x : Int) (h0 : 0 ≤ x) (h1 : x < 18446744073709551616) :
    (to_u64 x : Int) = x := by
  unfold to_u64
  omega

/-- Without wraparound (span at most `2 ^ 31 - 1`) the interpolation branch
computes the quotient of the exact product by the exact span. -/
theorem duty_cycle_interp_exact (p : Params) (t : Int)
    (h1 : p.min_temp < t) (h2 : t < p.max_temp)
    (hs : p.max_temp - p.min_temp ≤ 2147483647) :
    duty_cycle p 40000 t =
      some (40000 * (t - p.min_temp).toNat / (p.max_temp - p.min_temp).toNat) := by
  have hnl : ¬ t ≤ p.min_temp := by omega
  have hnh : ¬ t ≥ p.max_temp := by omega
  have hw1 : wrap_int (t - p.min_temp) = t - p.min_temp := by unfold wrap_int; omega
  have hw2 : wrap_int (p.max_temp - p.min_temp) = p.max_temp - p.min_temp := by
    unfold wrap_int; omega
  have hu1 : to_u64 (t - p.min_temp) = (t - p.min_temp).toNat := by unfold to_u64; omega
  have hu2 : to_u64 (p.max_temp - p.min_temp) = (p.max_temp - p.min_temp).toNat := by
    unfold to_u64; omega
  have hm : mul_u64 40000 (t - p.min_temp).toNat = 40000 * (t - p.min_temp).toNat := by
    unfold mul_u64; omega
  have hne : (p.max_temp - p.min_temp).toNat ≠ 0 := by omega
  simp only [duty_cycle, if_neg hnl, if_neg hnh, hw1, hw2, hu1, hu2, hm, div_u64, if_neg hne]

/-- With wraparound (span of `2 ^ 31` or more, thresholds in the `int` range)
the divisor converts to a `u64` above every possible product, so the
interpolation branch computes 0. -/
theorem duty_cycle_interp_wrapped (p : Params) (t : Int)
    (hmin : InInt p.min_temp) (hmax : InInt p.max_temp)
    (h1 : p.min_temp < t) (h2 : t < p.max_temp)
    (hs : 2147483648 ≤ p.max_temp - p.min_temp) :
    duty_cycle p 40000 t = some 0 := by
  unfold InInt at hmin hmax
  have hnl : ¬ t ≤ p.min_temp := by omega
  have hnh : ¬ t ≥ p.max_temp := by omega
  have hD : to_u64 (wrap_int (p.max_temp - p.min_temp)) =
      (p.max_temp - p.min_temp + 18446744069414584320).toNat := by
    unfold to_u64 wrap_int; omega
  have hN : mul_u64 40000 (to_u64 (wrap_int (t - p.min_temp))) <
      (p.max_temp - p.min_temp + 18446744069414584320).toNat := by
    by_cases hd : t - p.min_temp ≤ 2147483647
    · have hw : wrap_int (t - p.min_temp) = t - p.min_temp := by unfold wrap_int; omega
      have hu : to_u64 (t - p.min_temp) = (t - p.min_temp).toNat := by unfold to_u64; omega
      have hq : 40000 * (t - p.min_temp).toNat / 18446744073709551616 = 0 :=
        Nat.div_eq_of_lt (by omega)
      have hq : 40000 * (t - p.min_temp + 18446744069414584320).toNat /
          18446744073709551616 = 39999 :=
        Nat.div_eq_of_lt_le (by omega) (by omega)
      rw [hw, hu]
      unfold mul_u64
      omega
    · have hw : wrap_int (t - p.min_temp) = t - p.min_temp - 4294967296 := by
        unfold wrap_int; omega
      have hu : to_u64 (t - p.min_temp - 4294967296) =
          (t - p.min_temp + 18446744069414584320).toNat := by unfold to_u64; omega
      have hq : 40000 * (t - p.min_temp + 18446744069414584320).toNat /
          18446744073709551616 = 39999 :=
        Nat.div_eq_of_lt_le (by omega) (by omega)
      rw [hw, hu]
      unfold mul_u64
      omega
  have hne : (p.max_temp - p.min_temp + 18446744069414584320).toNat ≠ 0 := by omega
  simp only [duty_cycle, if_neg hnl, if_neg hnh, hD, div_u64, if_neg hne,
    Nat.div_eq_of_lt hN]

/-- For thresholds in the `int` range the duty computation never faults and
its result is at most the period. -/
theorem duty_cycle_total (p : Params) (t : Int)
    (hmin : InInt p.min_temp) (hmax : InInt p.max_temp) :
    ∃ d, duty_cycle p 40000 t = some d ∧ d ≤ 40000 := by
  by_cases hl : t ≤ p.min_temp
  · exact ⟨0, by simp only [duty_cycle, if_pos hl], by omega⟩
  by_cases hh : t ≥ p.max_temp
  · exact ⟨40000, by simp only [duty_cycle, if_neg hl, if_pos hh], le_refl _⟩
  by_cases hs : p.max_temp - p.min_temp ≤ 2147483647
  · refine ⟨_, duty_cycle_interp_exact p t (by omega) (by omega) hs, ?_⟩
    apply Nat.div_le_of_le_mul
    rw [Nat.mul_comm (p.max_temp - p.min_temp).toNat 40000]
    apply Nat.mul_le_mul_left
    omega
  · exact ⟨0, duty_cycle_interp_wrapped p t hmin hmax (by omega) (by omega) (by omega),
      by omega⟩

/-- The quotient computed without wraparound is the floor formula of the
specification. -/
theorem interp_quotient_eq_spec (p : Params) (t : Int)
    (h1 : p.min_temp < t) (h2 : t < p.max_temp) :
    ((40000 * (t - p.min_temp).toNat / (p.max_temp - p.min_temp).toNat : Nat) : Int) =
      spec_interp p t := by
  unfold spec_interp
  rw [Int.fdiv_eq_ediv _ (by omega)]
  push_cast
  rw [Int.toNat_of_nonneg (by omega), Int.toNat_of_nonneg (by omega)]

/-- The floor-division formula is the floor of the rational quotient. -/
theorem spec_interp_eq_floor (p : Params) (t : Int) (h : p.min_temp < p.max_temp) :
    spec_interp p t =
      ⌊((40000 * (t - p.min_temp) : Int) : ℚ) / ((p.max_temp - p.min_temp : Int) : ℚ)⌋ := by
  unfold spec_interp
  rw [Int.fdiv_eq_ediv _ (by omega)]
  obtain ⟨n, hn⟩ := Int.eq_ofNat_of_zero_le (show 0 ≤ p.max_temp - p.min_temp by omega)
  rw [hn, ← Rat.floor_intCast_div_natCast]
  simp

/-- The duty computation is non-decreasing in the reading, for thresholds in
the `int` range (whether or not the span wraps). -/
theorem duty_cycle_mono (p : Params) (t1 t2 : Int)
    (hmin : InInt p.min_temp) (hmax : InInt p.max_temp) (hle : t1 ≤ t2) :
    ∃ d1 d2, duty_cycle p 40000 t1 = some d1 ∧ duty_cycle p 40000 t2 = some d2 ∧
      d1 ≤ d2 := by
  obtain ⟨d1, hd1, hb1⟩ := duty_cycle_total p t1 hmin hmax
  obtain ⟨d2, hd2, hb2⟩ := duty_cycle_total p t2 hmin hmax
  refine ⟨d1, d2, hd1, hd2, ?_⟩
  by_cases hl : t1 ≤ p.min_temp
  · have h0 : duty_cycle p 40000 t1 = some 0 := by simp only [duty_cycle, if_pos hl]
    rw [h0] at hd1
    cases hd1
    exact Nat.zero_le _
  by_cases hh : t2 ≥ p.max_temp
  · have hl2 : ¬ t2 ≤ p.min_temp := by omega
    have h4 : duty_cycle p 40000 t2 = some 40000 := by
      simp only [duty_cycle, if_neg hl2, if_pos hh]
    rw [h4] at hd2
    cases hd2
    exact hb1
  by_cases hs : p.max_temp - p.min_temp ≤ 2147483647
  · rw [duty_cycle_interp_exact p t1 (by omega) (by omega) hs] at hd1
    rw [duty_cycle_interp_exact p t2 (by omega) (by omega) hs] at hd2
    cases hd1
    cases hd2
    apply Nat.div_le_div_right
    apply Nat.mul_le_mul_left
    omega
  · rw [duty_cycle_interp_wrapped p t1 hmin hmax (by omega) (by omega) (by omega)] at hd1
    cases hd1
    exact Nat.zero_le _

/-! ## Interpolation -/

/-- C3, as stated, fails: with `min_temp = -1`, `max_temp = 2147483647` and the
reading `2147483646` (all C `int` values, strictly between the thresholds) the
`int` subtraction `max_temp - min_temp` wraps, the step applies duty cycle 0,
and the floor formula gives 39999. -/
theorem fan_update_interp_wraps :
    InInt (-1) ∧ InInt 2147483647 ∧ InInt 2147483646 ∧
    (⟨0, 0, 2147483646⟩ : Thermal).ok ∧
    (⟨-1, 2147483647⟩ : Params).min_temp < 2147483646 ∧
    2147483646 < (⟨-1, 2147483647⟩ : Params).max_temp ∧
    (fan_update ⟨-1, 2147483647⟩ ⟨0, 0, 2147483646⟩ Kernel.boot).map
      (fun k => k.state.duty_cycle) = some 0 ∧
    spec_interp ⟨-1, 2147483647⟩ 2147483646 = 39999 := by
  decide

/-- C3 (interpolation), amended: for thresholds in the `int` range and every
reading with `min_temp < temp < max_temp`, a step whose zone lookup and
temperature read both succeed returns and applies one PWM state whose duty
cycle lies within `[0, 40000]`; whenever `max_temp - min_temp <= 2^31 - 1` that
duty cycle equals `floor(40000 * (temp - min_temp) / (max_temp - min_temp))`. -/
theorem fan_update_interp (p : Params) (th : Thermal) (k : Kernel)
    (hok : th.ok) (hmin : InInt p.min_temp) (hmax : InInt p.max_temp)
    (h1 : p.min_temp < th.temp_mC) (h2 : th.temp_mC < p.max_temp) :
    ∃ k1, fan_update p th k = some k1 ∧
      0 ≤ k1.state.duty_cycle ∧ k1.state.duty_cycle ≤ 40000 ∧
      apply_calls k1.log = apply_calls k.log ++ [k1.state] ∧
      (p.max_temp - p.min_temp ≤ 2147483647 →
        (k1.state.duty_cycle : Int) = spec_interp p th.temp_mC) := by
  obtain ⟨d, hd, hb⟩ := duty_cycle_total p th.temp_mC hmin hmax
  refine ⟨_, fan_update_of_duty p th k d hok hd, Nat.zero_le _, hb, by simp [apply_calls], ?_⟩
  intro hs
  rw [duty_cycle_interp_exact p th.temp_mC h1 h2 hs] at hd
  cases hd
  exact interp_quotient_eq_spec p th.temp_mC h1 h2

/-- Scenario C instance of the interpolation theorem: `min_temp = 50000`,
`max_temp = 70000`, `temp = 60000`. -/
theorem fan_update_interp_witness :
    ∃ k1, fan_update ⟨50000, 70000⟩ ⟨0, 0, 60000⟩ Kernel.boot = some k1 ∧
      0 ≤ k1.state.duty_cycle ∧ k1.state.duty_cycle ≤ 40000 ∧
      apply_calls k1.log = apply_calls Kernel.boot.log ++ [k1.state] ∧
      ((⟨50000, 70000⟩ : Params).max_temp - (⟨50000, 70000⟩ : Params).min_temp ≤ 2147483647 →
        (k1.state.duty_cycle : Int) = spec_interp ⟨50000, 70000⟩ 60000) :=
  fan_update_interp ⟨50000, 70000⟩ ⟨0, 0, 60000⟩ Kernel.boot
    (by decide) (by decide) (by decide) (by decide) (by decide)

/-- Scenario C: `min_temp = 50000`, `max_temp = 70000`, `temp = 60000` gives
duty cycle 20000, the value of the floor formula. -/
theorem scenario_C :
    (fan_update ⟨50000, 70000⟩ ⟨0, 0, 60000⟩ Kernel.boot).map
      (fun k => k.state.duty_cycle) = some 20000 ∧
    spec_interp ⟨50000, 70000⟩ 60000 = 20000 := by
  decide

/-- C10 (no wraparound): for 32-bit `int` values `min_temp < temp_mC < max_temp`
with `max_temp - min_temp <= 2^31 - 1`, neither `int` subtraction overflows,
both differences are positive and convert to `u64` unchanged, the product
`40000 * (temp_mC - min_temp)` is below `2^64`, and the machine result is the
exact `floor(40000 * (temp_mC - min_temp) / (max_temp - min_temp))`. -/
theorem interp_no_wraparound (p : Params) (t : Int)
    (_hmin : InInt p.min_temp) (_hmax : InInt p.max_temp) (_ht : InInt t)
    (h1 : p.min_temp < t) (h2 : t < p.max_temp)
    (hs : p.max_temp - p.min_temp ≤ 2147483647) :
    InInt (t - p.min_temp) ∧ InInt (p.max_temp - p.min_temp) ∧
    wrap_int (t - p.min_temp) = t - p.min_temp ∧
    wrap_int (p.max_temp - p.min_temp) = p.max_temp - p.min_temp ∧
    0 < t - p.min_temp ∧ 0 < p.max_temp - p.min_temp ∧
    (to_u64 (wrap_int (t - p.min_temp)) : Int) = t - p.min_temp ∧
    (to_u64 (wrap_int (p.max_temp - p.min_temp)) : Int) = p.max_temp - p.min_temp ∧
    40000 * to_u64 (wrap_int (t - p.min_temp)) < 18446744073709551616 ∧
    mul_u64 40000 (to_u64 (wrap_int (t - p.min_temp))) =
      40000 * to_u64 (wrap_int (t - p.min_temp)) ∧
    ∃ d, duty_cycle p 40000 t = some d ∧ (d : Int) = spec_interp p t := by
  have hi1 : InInt (t - p.min_temp) := by unfold InInt; omega
  have hi2 : InInt (p.max_temp - p.min_temp) := by unfold InInt; omega
  have hw1 := wrap_int_of_InInt _ hi1
  have hw2 := wrap_int_of_InInt _ hi2
  have hu1 := to_u64_of_nonneg (t - p.min_temp) (by omega) (by omega)
  have hu2 := to_u64_of_nonneg (p.max_temp - p.min_temp) (by omega) (by omega)
  have hlt : 40000 * to_u64 (t - p.min_temp) < 18446744073709551616 := by omega
  refine ⟨hi1, hi2, hw1, hw2, by omega, by omega, ?_, ?_, ?_, ?_, ?_⟩
  · rw [hw1]; exact hu1
  · rw [hw2]; exact hu2
  · rw [hw1]; exact hlt
  · rw [hw1]; exact Nat.mod_eq_of_lt hlt
  · exact ⟨_, duty_cycle_interp_exact p t h1 h2 hs, interp_quotient_eq_spec p t h1 h2⟩

/-- An instance of the no-wraparound theorem at the default thresholds and a
reading of 60.0 C. -/
theorem interp_no_wraparound_witness :
    InInt ((60000 : Int) - 50000) ∧ InInt ((70000 : Int) - 50000) ∧
    wrap_int (60000 - 50000) = 60000 - 50000 ∧
    wrap_int (70000 - 50000) = 70000 - 50000 ∧
    (0 : Int) < 60000 - 50000 ∧ (0 : Int) < 70000 - 50000 ∧
    (to_u64 (wrap_int (60000 - 50000)) : Int) = 60000 - 50000 ∧
    (to_u64 (wrap_int (70000 - 50000)) : Int) = 70000 - 50000 ∧
    40000 * to_u64 (wrap_int (60000 - 50000)) < 18446744073709551616 ∧
    mul_u64 40000 (to_u64 (wrap_int (60000 - 50000))) =
      40000 * to_u64 (wrap_int (60000 - 50000)) ∧
    ∃ d, duty_cycle ⟨50000, 70000⟩ 40000 60000 = some d ∧
      (d : Int) = spec_interp ⟨50000, 70000⟩ 60000 :=
  interp_no_wraparound ⟨50000, 70000⟩ 60000
    (by decide) (by decide) (by decide) (by decide) (by decide) (by decide)

/-! ## Monotonicity and idempotence -/

/-- C4 (monotonicity): for fixed thresholds (C `int` values) and two readings
`t1 <= t2`, the steps for `t1` and `t2` both return and the duty cycle applied
for `t1` is at most the one applied for `t2`, across all three branches. -/
theorem fan_update_monotone (p : Params) (th1 th2 : Thermal) (k1 k2 : Kernel)
    (hmin : InInt p.min_temp) (hmax : InInt p.max_temp)
    (hok1 : th1.ok) (hok2 : th2.ok) (hle : th1.temp_mC ≤ th2.temp_mC) :
    ∃ j1 j2, fan_update p th1 k1 = some j1 ∧ fan_update p th2 k2 = some j2 ∧
      j1.state.duty_cycle ≤ j2.state.duty_cycle := by
  obtain ⟨d1, d2, hd1, hd2, hd⟩ := duty_cycle_mono p th1.temp_mC th2.temp_mC hmin hmax hle
  exact ⟨_, _, fan_update_of_duty p th1 k1 d1 hok1 hd1,
    fan_update_of_duty p th2 k2 d2 hok2 hd2, hd⟩

/-- An instance of monotonicity across the interpolation and the high clamp:
readings 60.0 C and 75.0 C at the default thresholds. -/
theorem fan_update_monotone_witness :
    ∃ j1 j2, fan_update ⟨50000, 70000⟩ ⟨0, 0, 60000⟩ Kernel.boot = some j1 ∧
      fan_update ⟨50000, 70000⟩ ⟨0, 0, 75000⟩ Kernel.boot = some j2 ∧
      j1.state.duty_cycle ≤ j2.state.duty_cycle :=
  fan_update_monotone ⟨50000, 70000⟩ ⟨0, 0, 60000⟩ ⟨0, 0, 75000⟩ Kernel.boot Kernel.boot
    (by decide) (by decide) (by decide) (by decide) (by decide)

/-- C5 (idempotence): for every prior kernel (so every previously applied PWM
state) and every reading, a successful step run twice with the same reading
leaves the same applied PWM state as run once; the applied state is
`(40000, d, true)` with `d` computed from the reading and the thresholds only,
so any other prior state and any other successful read of the same temperature
give the same applied state. -/
theorem fan_update_idempotent (p : Params) (th : Thermal) (k : Kernel)
    (hmin : InInt p.min_temp) (hmax : InInt p.max_temp) (hok : th.ok) :
    ∃ k1 k2, fan_update p th k = some k1 ∧ fan_update p th k1 = some k2 ∧
      k2.state = k1.state ∧
      k1.state.period = 40000 ∧ k1.state.enabled = true ∧
      duty_cycle p 40000 th.temp_mC = some k1.state.duty_cycle ∧
      ∀ (j : Kernel) (th2 : Thermal), th2.ok → th2.temp_mC = th.temp_mC →
        ∃ j1, fan_update p th2 j = some j1 ∧ j1.state = k1.state := by
  obtain ⟨d, hd, _⟩ := duty_cycle_total p th.temp_mC hmin hmax
  refine ⟨_, _, fan_update_of_duty p th k d hok hd, fan_update_of_duty p th _ d hok hd,
    rfl, rfl, rfl, hd, ?_⟩
  intro j th2 hok2 heq
  exact ⟨_, fan_update_of_duty p th2 j d hok2 (by rw [heq]; exact hd), rfl⟩

/-- An instance of idempotence: a reading of 60.0 C at the default thresholds,
starting from a device left at full duty. -/
theorem fan_update_idempotent_witness :
    ∃ k1 k2, fan_update ⟨50000, 70000⟩ ⟨0, 0, 60000⟩ ⟨7, ⟨40000, 40000, true⟩, []⟩ = some k1 ∧
      fan_update ⟨50000, 70000⟩ ⟨0, 0, 60000⟩ k1 = some k2 ∧
      k2.state = k1.state ∧
      k1.state.period = 40000 ∧ k1.state.enabled = true ∧
      duty_cycle ⟨50000, 70000⟩ 40000 (⟨0, 0, 60000⟩ : Thermal).temp_mC
        = some k1.state.duty_cycle ∧
      ∀ (j : Kernel) (th2 : Thermal), th2.ok →
        th2.temp_mC = (⟨0, 0, 60000⟩ : Thermal).temp_mC →
        ∃ j1, fan_update ⟨50000, 70000⟩ th2 j = some j1 ∧ j1.state = k1.state :=
  fan_update_idempotent ⟨50000, 70000⟩ ⟨0, 0, 60000⟩ ⟨7, ⟨40000, 40000, true⟩, []⟩
    (by decide) (by decide) (by decide)

/-! ## Sensor failure -/

/-- A step in which the zone lookup or the temperature read fails logs one
error line and rearms the timer; nothing else changes. -/
theorem fan_update_of_failed (p : Params) (th : Thermal) (k : Kernel) (h : ¬ th.ok) :
    ∃ e, (e = Event.pr_err_zone ∨ e = Event.pr_err_temp) ∧
      fan_update p th k =
        some ⟨k.fan_pwm, k.state, k.log ++ [e, Event.schedule_delayed_work 500]⟩ := by
  unfold Thermal.ok at h
  by_cases hz : IS_ERR th.tz = true
  · refine ⟨Event.pr_err_zone, Or.inl rfl, ?_⟩
    unfold fan_update
    simp [hz, schedule_delayed_work, pr, FAN_POLL_INTERVAL_MS]
  · have hz2 : IS_ERR th.tz = false := by simpa using hz
    have hr : th.rc ≠ 0 := fun h0 => h ⟨hz2, h0⟩
    refine ⟨Event.pr_err_temp, Or.inr rfl, ?_⟩
    unfold fan_update
    simp [hz2, hr, schedule_delayed_work, pr, FAN_POLL_INTERVAL_MS]

/-- Any number of failing steps leaves the applied PWM state and the list of
PWM apply calls as they were. -/
theorem run_all_failed (p : Params) (ths : List Thermal) :
    ∀ k : Kernel, (∀ th ∈ ths, ¬ th.ok) →
      ∃ k2, run p ths k = some k2 ∧ k2.state = k.state ∧
        apply_calls k2.log = apply_calls k.log := by
  induction ths with
  | nil => intro k _; exact ⟨k, rfl, rfl, rfl⟩
  | cons th rest ih =>
    intro k hall
    obtain ⟨e, he, hstep⟩ := fan_update_of_failed p th k (hall th (List.mem_cons_self _ _))
    obtain ⟨k2, hrun, hst, hlog⟩ :=
      ih ⟨k.fan_pwm, k.state, k.log ++ [e, Event.schedule_delayed_work 500]⟩
        (fun t ht => hall t (List.mem_cons_of_mem _ ht))
    refine ⟨k2, ?_, hst, ?_⟩
    · simp only [run, hstep, hrun]
    · rw [hlog]
      rcases he with rfl | rfl <;> simp [apply_calls]

/-- C6 (non-fatal sensor failure): a step in which the thermal-zone lookup
fails or the temperature read fails returns, makes no PWM apply call, leaves
the applied PWM state unchanged, and schedules exactly one next invocation,
with a delay of 500 ms. -/
theorem fan_update_sensor_failure (p : Params) (th : Thermal) (k : Kernel)
    (hfail : IS_ERR th.tz = true ∨ th.rc ≠ 0) :
    ∃ k1, fan_update p th k = some k1 ∧
      apply_calls k1.log = apply_calls k.log ∧
      k1.state = k.state ∧
      scheduled k1.log = scheduled k.log ++ [500] := by
  have hnok : ¬ th.ok := by
    unfold Thermal.ok
    rintro ⟨hz, hr⟩
    rcases hfail with h | h
    · rw [hz] at h; cases h
    · exact h hr
  obtain ⟨e, he, hstep⟩ := fan_update_of_failed p th k hnok
  refine ⟨_, hstep, ?_, rfl, ?_⟩
  · rcases he with rfl | rfl <;> simp [apply_calls]
  · rcases he with rfl | rfl <;> simp [scheduled]

/-- Scenario D: the zone lookup fails with `ERR_PTR(-ENODEV)`. -/
theorem fan_update_sensor_failure_witness :
    ∃ k1, fan_update ⟨50000, 70000⟩ ⟨-19, 0, 0⟩ ⟨7, ⟨40000, 20000, true⟩, []⟩ = some k1 ∧
      apply_calls k1.log = apply_calls (⟨7, ⟨40000, 20000, true⟩, []⟩ : Kernel).log ∧
      k1.state = (⟨7, ⟨40000, 20000, true⟩, []⟩ : Kernel).state ∧
      scheduled k1.log = scheduled (⟨7, ⟨40000, 20000, true⟩, []⟩ : Kernel).log ++ [500] :=
  fan_update_sensor_failure ⟨50000, 70000⟩ ⟨-19, 0, 0⟩ ⟨7, ⟨40000, 20000, true⟩, []⟩
    (Or.inl (by decide))

/-! ## Activation -/

/-- C7 (activation failure is atomic): whenever `pwm_get` returns an error
pointer, `cm4io_fan_init` returns that error code, which is non-zero, to the
loader; it makes no PWM apply call, leaves the PWM state as it was, and arms no
timer, so no control-loop step is scheduled. -/
theorem cm4io_fan_init_failure (ptr : Int) (args_period : Nat) (k : Kernel)
    (herr : IS_ERR ptr = true) :
    (cm4io_fan_init ptr args_period k).1 = PTR_ERR ptr ∧
    (cm4io_fan_init ptr args_period k).1 ≠ 0 ∧
    apply_calls (cm4io_fan_init ptr args_period k).2.log = apply_calls k.log ∧
    (cm4io_fan_init ptr args_period k).2.state = k.state ∧
    scheduled (cm4io_fan_init ptr args_period k).2.log = scheduled k.log := by
  have hrange : -4095 ≤ ptr ∧ ptr ≤ -1 := by simpa [IS_ERR] using herr
  have hw : wrap_int ptr = ptr := by unfold wrap_int; omega
  have hinit : cm4io_fan_init ptr args_period k =
      (ptr, ⟨ptr, k.state, k.log ++ [Event.pr_err_pwm]⟩) := by
    unfold cm4io_fan_init
    simp [herr, PTR_ERR, hw, pr]
  rw [hinit]
  refine ⟨rfl, ?_, ?_, rfl, ?_⟩
  · show ptr ≠ 0
    omega
  · simp [apply_calls]
  · simp [scheduled]

/-- Scenario E: `pwm_get` fails with `ERR_PTR(-ENODEV)`. -/
theorem cm4io_fan_init_failure_witness :
    (cm4io_fan_init (-19) 1000000 Kernel.boot).1 = PTR_ERR (-19) ∧
    (cm4io_fan_init (-19) 1000000 Kernel.boot).1 ≠ 0 ∧
    apply_calls (cm4io_fan_init (-19) 1000000 Kernel.boot).2.log
      = apply_calls Kernel.boot.log ∧
    (cm4io_fan_init (-19) 1000000 Kernel.boot).2.state = Kernel.boot.state ∧
    scheduled (cm4io_fan_init (-19) 1000000 Kernel.boot).2.log
      = scheduled Kernel.boot.log :=
  cm4io_fan_init_failure (-19) 1000000 Kernel.boot (by decide)

/-- C8 (successful activation): whenever `pwm_get` returns a valid pointer,
`cm4io_fan_init` applies the PWM state `(40000, 0, true)` in one apply call,
schedules exactly one first control-loop step with a delay of 500 ms, and
returns 0; through any number of further steps whose zone lookup or temperature
read fails, the applied state stays `(40000, 0, true)` and no further apply
call is made. -/
theorem cm4io_fan_init_success (ptr : Int) (args_period : Nat) (k : Kernel)
    (hok : IS_ERR ptr = false) :
    (cm4io_fan_init ptr args_period k).1 = 0 ∧
    (cm4io_fan_init ptr args_period k).2.state = ⟨40000, 0, true⟩ ∧
    apply_calls (cm4io_fan_init ptr args_period k).2.log
      = apply_calls k.log ++ [⟨40000, 0, true⟩] ∧
    scheduled (cm4io_fan_init ptr args_period k).2.log
      = scheduled k.log ++ [FAN_POLL_INTERVAL_MS] ∧
    FAN_POLL_INTERVAL_MS = 500 ∧
    ∀ (p : Params) (ths : List Thermal), (∀ th ∈ ths, ¬ th.ok) →
      ∃ k2, run p ths (cm4io_fan_init ptr args_period k).2 = some k2 ∧
        k2.state = ⟨40000, 0, true⟩ ∧
        apply_calls k2.log = apply_calls k.log ++ [⟨40000, 0, true⟩] := by
  have hinit : cm4io_fan_init ptr args_period k =
      (0, ⟨ptr, ⟨40000, 0, true⟩, k.log ++ [Event.pwm_apply_state ⟨40000, 0, true⟩,
        Event.schedule_delayed_work 500, Event.pr_info_loaded]⟩) := by
    unfold cm4io_fan_init
    simp [hok, pwm_init_state, pwm_apply_state, schedule_delayed_work, pr,
      FAN_POLL_INTERVAL_MS]
  have hcalls : apply_calls (k.log ++ [Event.pwm_apply_state ⟨40000, 0, true⟩,
      Event.schedule_delayed_work 500, Event.pr_info_loaded])
      = apply_calls k.log ++ [⟨40000, 0, true⟩] := by
    simp [apply_calls]
  rw [hinit]
  refine ⟨rfl, rfl, hcalls, ?_, rfl, ?_⟩
  · simp [scheduled, FAN_POLL_INTERVAL_MS]
  · intro p ths hall
    obtain ⟨k2, hrun, hst, hlog⟩ := run_all_failed p ths _ hall
    exact ⟨k2, hrun, hst, by rw [hlog]; exact hcalls⟩

/-- An instance of successful activation: `pwm_get` returns a valid pointer
and the device was registered with a period of 1 ms. -/
theorem cm4io_fan_init_success_witness :
    (cm4io_fan_init 4096 1000000 Kernel.boot).1 = 0 ∧
    (cm4io_fan_init 4096 1000000 Kernel.boot).2.state = ⟨40000, 0, true⟩ ∧
    apply_calls (cm4io_fan_init 4096 1000000 Kernel.boot).2.log
      = apply_calls Kernel.boot.log ++ [⟨40000, 0, true⟩] ∧
    scheduled (cm4io_fan_init 4096 1000000 Kernel.boot).2.log
      = scheduled Kernel.boot.log ++ [FAN_POLL_INTERVAL_MS] ∧
    FAN_POLL_INTERVAL_MS = 500 ∧
    ∀ (p : Params) (ths : List Thermal), (∀ th ∈ ths, ¬ th.ok) →
      ∃ k2, run p ths (cm4io_fan_init 4096 1000000 Kernel.boot).2 = some k2 ∧
        k2.state = ⟨40000, 0, true⟩ ∧
        apply_calls k2.log = apply_calls Kernel.boot.log ++ [⟨40000, 0, true⟩] :=
  cm4io_fan_init_success 4096 1000000 Kernel.boot (by decide)

/-! ## Unvalidated thresholds -/

/-- When neither clamp applies, the duty computation is the `u64` division of
line 49, whose divisor is the converted `int` value `interp_divisor`. -/
theorem duty_cycle_of_reaches (p : Params) (period : Nat) (t : Int)
    (h : reaches_interp p t) :
    duty_cycle p period t =
      div_u64 (mul_u64 period (to_u64 (wrap_int (t - p.min_temp))))
        (to_u64 (interp_divisor p)) := by
  obtain ⟨hl, hh⟩ := h
  simp only [duty_cycle, if_neg hl, if_neg hh, interp_divisor]

/-- With `max_temp <= min_temp` one of the two clamps always applies. -/
theorem not_reaches_interp_of_inverted (p : Params) (t : Int)
    (hinv : p.max_temp ≤ p.min_temp) : ¬ reaches_interp p t := by
  unfold reaches_interp
  omega

/-- With `max_temp <= min_temp` the duty computation is a step function of the
reading. -/
theorem duty_cycle_of_inverted (p : Params) (t : Int)
    (hinv : p.max_temp ≤ p.min_temp) :
    duty_cycle p 40000 t = some (if t ≤ p.min_temp then 0 else 40000) := by
  by_cases hl : t ≤ p.min_temp
  · simp only [duty_cycle, if_pos hl]
  · have hh : t ≥ p.max_temp := by omega
    simp only [duty_cycle, if_neg hl, if_pos hh]

/-- C9, as stated, fails: there are no thresholds with `min_temp >= max_temp`
and reading for which a successful step reaches the interpolation with a
non-positive divisor, or faults, or applies a duty cycle above 40000 (a duty
cycle below 0 is excluded by its unsigned type). -/
theorem inverted_thresholds_never_interpolate :
    ¬ ∃ (p : Params) (th : Thermal) (k : Kernel),
        th.ok ∧ p.min_temp ≥ p.max_temp ∧
        ((reaches_interp p th.temp_mC ∧ interp_divisor p ≤ 0) ∨
          fan_update p th k = none ∨
          ∃ k1, fan_update p th k = some k1 ∧ 40000 < k1.state.duty_cycle) := by
  rintro ⟨p, th, k, hok, hinv, h⟩
  have hstep := fan_update_of_duty p th k _ hok (duty_cycle_of_inverted p th.temp_mC hinv)
  rcases h with ⟨hr, _⟩ | hnone | ⟨k1, hk1, hbig⟩
  · exact not_reaches_interp_of_inverted p th.temp_mC hinv hr
  · rw [hstep] at hnone
    cases hnone
  · rw [hstep] at hk1
    cases hk1
    simp only at hbig
    split at hbig <;> omega

/-- C9, amended: when `min_temp >= max_temp`, a successful step never reaches
the interpolation, so no division takes place; it returns and applies duty
cycle 0 for `temp <= min_temp` and 40000 for `temp > min_temp`, which is
within `[0, 40000]`. -/
theorem fan_update_inverted_thresholds (p : Params) (th : Thermal) (k : Kernel)
    (hok : th.ok) (hinv : p.min_temp ≥ p.max_temp) :
    ¬ reaches_interp p th.temp_mC ∧
    ∃ k1, fan_update p th k = some k1 ∧
      (th.temp_mC ≤ p.min_temp → k1.state.duty_cycle = 0) ∧
      (p.min_temp < th.temp_mC → k1.state.duty_cycle = 40000) ∧
      k1.state.duty_cycle ≤ 40000 := by
  refine ⟨not_reaches_interp_of_inverted p th.temp_mC hinv, _,
    fan_update_of_duty p th k _ hok (duty_cycle_of_inverted p th.temp_mC hinv), ?_, ?_, ?_⟩
  · intro hl
    show (if th.temp_mC ≤ p.min_temp then 0 else 40000) = 0
    rw [if_pos hl]
  · intro hg
    show (if th.temp_mC ≤ p.min_temp then 0 else 40000) = 40000
    rw [if_neg (by omega)]
  · show (if th.temp_mC ≤ p.min_temp then 0 else 40000) ≤ 40000
    split <;> omega

/-- An instance with swapped thresholds: `min_temp = 70000`,
`max_temp = 50000` and a reading of 60.0 C. -/
theorem fan_update_inverted_thresholds_witness :
    ¬ reaches_interp ⟨70000, 50000⟩ (⟨0, 0, 60000⟩ : Thermal).temp_mC ∧
    ∃ k1, fan_update ⟨70000, 50000⟩ ⟨0, 0, 60000⟩ Kernel.boot = some k1 ∧
      ((⟨0, 0, 60000⟩ : Thermal).temp_mC ≤ (⟨70000, 50000⟩ : Params).min_temp →
        k1.state.duty_cycle = 0) ∧
      ((⟨70000, 50000⟩ : Params).min_temp < (⟨0, 0, 60000⟩ : Thermal).temp_mC →
        k1.state.duty_cycle = 40000) ∧
      k1.state.duty_cycle ≤ 40000 :=
  fan_update_inverted_thresholds ⟨70000, 50000⟩ ⟨0, 0, 60000⟩ Kernel.boot
    (by decide) (by decide)

end Cm4Fan
